import Mathlib

set_option linter.unusedVariables false

/-!
Verification development for the `ts` utility (single source file `ts.c`).

The core under study is the composite-time representation, the
`approximate_time` precision/rollover algorithm, the ordered
timestamp-template matcher, and the relative-time formatting pipeline
(`fmt_time_rel` plus the emission in `main`).

Modelling conventions:
* `time_t` unit values are modelled as `Nat`: every caller of the
  composite-time functions passes `labs()` of a seconds difference, and the
  algorithm only adds, divides and resets, so values stay non-negative and
  far below any machine-width overflow for the quantities involved.
* The `int precision` parameter is modelled as `Nat`; the program restricts
  it to 1..4 (`parse_options`), and the spec additionally reasons about 0 and
  values at least the unit count, all non-negative.
* The goto-driven restart loop of `approximate_time` is modelled as a fuelled
  iteration of full scans; `nonYearSum ct + 1` scans are proved sufficient
  because each restart strictly decreases the sum of the non-YEAR units.
* The external regex engine (pcre2) is modelled by a small matcher giving
  PCRE leftmost/greedy-backtracking semantics for the exact construct subset
  the ten patterns in `ts.c` use.  The external calendar library (strptime,
  localtime, mktime) is passed in as an explicit collaborator value, as the
  spec prescribes for external interfaces.
-/

/-! ## Unit indices and constants (enum and constants in ts.c) -/

def YEAR_UNIT : Nat := 0

def DAY_UNIT : Nat := 1

def HOUR_UNIT : Nat := 2

def MINUTE_UNIT : Nat := 3

def SECOND_UNIT : Nat := 4

def TIME_UNIT_COUNT : Nat := 5

def DAYS_PER_YEAR : Nat := 365

def HOURS_PER_DAY : Nat := 24

def MINUTES_PER_HOUR : Nat := 60

def SECONDS_PER_MINUTE : Nat := 60

def SECONDS_PER_YEAR : Nat := DAYS_PER_YEAR * HOURS_PER_DAY * MINUTES_PER_HOUR * SECONDS_PER_MINUTE

def SECONDS_PER_DAY : Nat := HOURS_PER_DAY * MINUTES_PER_HOUR * SECONDS_PER_MINUTE

def SECONDS_PER_HOUR : Nat := MINUTES_PER_HOUR * SECONDS_PER_MINUTE

/-- `INT_MAX` of the build platform (32-bit `int`), used for `MAX_VALUES[YEAR_UNIT]`;
the YEAR entry is never consulted because the scan skips the YEAR unit. -/
def INT_MAX : Nat := 2147483647

/-- `MAX_VALUES` from ts.c, indexed by time unit. -/
def MAX_VALUES : Nat → Nat
  | 0 => INT_MAX
  | 1 => DAYS_PER_YEAR
  | 2 => HOURS_PER_DAY
  | 3 => MINUTES_PER_HOUR
  | 4 => SECONDS_PER_MINUTE
  | _ => 0

/-! ## Composite time (`composite_time`, a 5-element `time_t` array) -/

/-- `composite_time` from ts.c: the array indexed by
YEAR/DAY/HOUR/MINUTE/SECOND, most significant first. -/
structure CompTime where
  year : Nat
  day : Nat
  hour : Nat
  minute : Nat
  second : Nat
deriving DecidableEq

/-- Array read `comp_time[i]`. -/
def CompTime.get (ct : CompTime) : Nat → Nat
  | 0 => ct.year
  | 1 => ct.day
  | 2 => ct.hour
  | 3 => ct.minute
  | 4 => ct.second
  | _ => 0

/-- Array write `comp_time[i] = v` (no-op outside the array, never used). -/
def CompTime.set (ct : CompTime) : Nat → Nat → CompTime
  | 0, v => { ct with year := v }
  | 1, v => { ct with day := v }
  | 2, v => { ct with hour := v }
  | 3, v => { ct with minute := v }
  | 4, v => { ct with second := v }
  | _, _ => ct

/-- `comp_time[i]++`. -/
def CompTime.incr (ct : CompTime) (i : Nat) : CompTime :=
  ct.set i (ct.get i + 1)

/-- The reset loop `for (j = i; j < TIME_UNIT_COUNT; j++) comp_time[j] = 0;`. -/
def CompTime.zeroFrom (ct : CompTime) : Nat → CompTime
  | 0 => { year := 0, day := 0, hour := 0, minute := 0, second := 0 }
  | 1 => { year := ct.year, day := 0, hour := 0, minute := 0, second := 0 }
  | 2 => { year := ct.year, day := ct.day, hour := 0, minute := 0, second := 0 }
  | 3 => { year := ct.year, day := ct.day, hour := ct.hour, minute := 0, second := 0 }
  | 4 => { year := ct.year, day := ct.day, hour := ct.hour, minute := ct.minute, second := 0 }
  | _ + 5 => ct

/-- Sum of the non-YEAR units.  Not part of ts.c; it is the termination
measure of the restart loop: every restart strictly decreases it. -/
def CompTime.nonYearSum (ct : CompTime) : Nat :=
  ct.day + ct.hour + ct.minute + ct.second

/-- Number of non-zero units among the indices in `l` (the quantity
`non_zero_count` accumulates over a scan). -/
def countNZ (ct : CompTime) : List Nat → Nat
  | [] => 0
  | i :: is => (if ct.get i = 0 then 0 else 1) + countNZ ct is

/-- Number of non-zero non-YEAR units of a composite time. -/
def CompTime.nonZeroNonYearUnits (ct : CompTime) : Nat :=
  (if ct.day = 0 then 0 else 1) + (if ct.hour = 0 then 0 else 1) +
    (if ct.minute = 0 then 0 else 1) + (if ct.second = 0 then 0 else 1)

/-! ## Conversions (`seconds_to_composite_time` / `composite_time_to_seconds`) -/

/-- `seconds_to_composite_time` from ts.c: successive truncating
division/modulus by the fixed per-unit second counts. -/
def seconds_to_composite_time (seconds : Nat) : CompTime :=
  { year := seconds / SECONDS_PER_YEAR,
    day := seconds % SECONDS_PER_YEAR / SECONDS_PER_DAY,
    hour := seconds % SECONDS_PER_YEAR % SECONDS_PER_DAY / SECONDS_PER_HOUR,
    minute := seconds % SECONDS_PER_YEAR % SECONDS_PER_DAY % SECONDS_PER_HOUR / SECONDS_PER_MINUTE,
    second := seconds % SECONDS_PER_YEAR % SECONDS_PER_DAY % SECONDS_PER_HOUR % SECONDS_PER_MINUTE }

/-- `composite_time_to_seconds` from ts.c: the inverse weighted sum. -/
def composite_time_to_seconds (ct : CompTime) : Nat :=
  ct.year * SECONDS_PER_YEAR + ct.day * SECONDS_PER_DAY + ct.hour * SECONDS_PER_HOUR +
    ct.minute * SECONDS_PER_MINUTE + ct.second

/-! ## The approximation scan (`approximate_time`) -/

/-- One pass of the `for` loop inside `approximate_time` (ts.c lines
288-311) together with the post-loop overflow handling (lines 313-318).
`l` is the list of remaining loop indices, `non_zero_count` and
`overflowing_index` the loop state.  Returns `some ct2` when the loop body
takes the excess branch (round-up carry, reset of this and subsequent units,
`goto reapproximate`), or when the completed scan recorded an overflowing
index (carry into the previous unit, reset, `goto reapproximate`); returns
`none` when the scan completes with nothing left to do. -/
def scanLoop (precision : Nat) (ct : CompTime) :
    List Nat → Nat → Option Nat → Option CompTime
  | [], _, some oi => some ((ct.incr (oi - 1)).set oi 0)
  | [], _, none => none
  | i :: is, non_zero_count, overflowing_index =>
    if ct.get i = 0 then
      scanLoop precision ct is non_zero_count overflowing_index
    else
      if i = YEAR_UNIT then
        scanLoop precision ct is (non_zero_count + 1) overflowing_index
      else
        if precision < non_zero_count + 1 then
          some ((if MAX_VALUES i / 2 ≤ ct.get i then ct.incr (i - 1) else ct).zeroFrom i)
        else
          if MAX_VALUES i ≤ ct.get i then
            scanLoop precision ct is (non_zero_count + 1) (some i)
          else
            scanLoop precision ct is (non_zero_count + 1) overflowing_index

/-- A full scan of the unit array from the `reapproximate` label:
`some ct2` means the loop restarts with the updated array, `none` means
the function returns. -/
def scanStep (precision : Nat) (ct : CompTime) : Option CompTime :=
  scanLoop precision ct [0, 1, 2, 3, 4] 0 none

/-- The `goto reapproximate` loop as a fuelled iteration of full scans. -/
def approxIter (precision : Nat) : Nat → CompTime → CompTime
  | 0, ct => ct
  | fuel + 1, ct =>
    match scanStep precision ct with
    | none => ct
    | some ct2 => approxIter precision fuel ct2

/-- `approximate_time` from ts.c.  The C function restarts its scan until a
full pass finds no excess unit and no overflowing unit; `nonYearSum ct + 1`
passes always suffice (each restart strictly decreases `nonYearSum`,
see `scanStep_nonYearSum_lt`), so the fuelled iteration computes the
loop's result. -/
def approximate_time (precision : Nat) (ct : CompTime) : CompTime :=
  approxIter precision (ct.nonYearSum + 1) ct

/-! ## Timestamp pattern matcher

The detection patterns live in the `timestamps` table of ts.c; the matching
itself is done by the external pcre2 engine.  The spec treats that engine as
a black-box capability ("does this text region match template T, yielding a
sub-span"), so the engine is modelled here: a backtracking matcher with PCRE
semantics (leftmost match, greedy quantifiers) for the exact construct
subset the ten patterns use: literals, the escape classes \d \w \s, the
bracket classes [-\s\/], [+-], [-:], bounded repetition, and +.  All
subject lines considered are ASCII, on which the PCRE2_UTF/UCP classes
agree with the ASCII definitions below. -/

/-- Single-character tokens of the ts.c patterns. -/
inductive RTok where
  | digit
  | word
  | space
  | lit (c : Char)
  | sepClass
  | signClass
  | dashColonClass
deriving DecidableEq

/-- Does a character match a token?  (PCRE \d, \w, \s, literals and the
three bracket classes, on ASCII.) -/
def tokMatch : RTok → Char → Bool
  | RTok.digit, c => c.isDigit
  | RTok.word, c => c.isAlphanum || c = '_'
  | RTok.space, c =>
    c = ' ' || c = '\t' || c = '\n' || c = '\r' || c = '\x0b' || c = '\x0c'
  | RTok.lit a, c => c = a
  | RTok.sepClass, c =>
    c = '-' || c = ' ' || c = '\t' || c = '\n' || c = '\r' || c = '\x0b' || c = '\x0c' || c = '/'
  | RTok.signClass, c => c = '+' || c = '-'
  | RTok.dashColonClass, c => c = '-' || c = ':'

/-- A pattern element: a single token, a counted repetition, or a
one-or-more repetition. -/
inductive RElem where
  | tok (t : RTok)
  | rep (t : RTok) (lo hi : Nat)
  | plus (t : RTok)
deriving DecidableEq

/-- Length of the longest prefix of `cs` whose characters all match `t`. -/
def countLeading (t : RTok) : List Char → Nat
  | [] => 0
  | c :: cs => if tokMatch t c then countLeading t cs + 1 else 0

/-- Let a quantified token consume `k, k-1, ..., lo` characters of `cs`
(longest first, i.e. greedy with backtracking), matching the rest of the
pattern — supplied as the continuation `rest` — after it.  The caller has
already checked that the first `k` characters all match the token. -/
def tryCounts (rest : List Char → Option Nat) (cs : List Char) (lo : Nat) : Nat → Option Nat
  | 0 => if lo = 0 then rest cs else none
  | k + 1 =>
    if k + 1 < lo then none
    else
      match rest (cs.drop (k + 1)) with
      | some n => some (k + 1 + n)
      | none => tryCounts rest cs lo k

/-- Match a pattern against a prefix of `cs`, returning the number of
characters consumed; greedy quantifiers with backtracking (PCRE). -/
def matchSeq : List RElem → List Char → Option Nat
  | [], _ => some 0
  | RElem.tok _ :: _, [] => none
  | RElem.tok t :: ps, c :: cs =>
    if tokMatch t c then (matchSeq ps cs).map (fun n => n + 1) else none
  | RElem.rep t lo hi :: ps, cs => tryCounts (matchSeq ps) cs lo (min (countLeading t cs) hi)
  | RElem.plus t :: ps, cs => tryCounts (matchSeq ps) cs 1 (countLeading t cs)

/-- `pcre2_match` on a subject: try each start offset left to right and
return the byte span `[start, end)` of the first (leftmost) match. -/
def pcre2Search (p : List RElem) : List Char → Nat → Option (Nat × Nat)
  | cs, pos =>
    match matchSeq p cs with
    | some n => some (pos, pos + n)
    | none =>
      match cs with
      | [] => none
      | _ :: cs2 => pcre2Search p cs2 (pos + 1)

/-- `struct timestamp_pattern` from ts.c: detection template, description
and the paired strptime parse format. -/
structure TimestampPat where
  re : List RElem
  description : String
  strptime_format : String

/-- The `timestamps` table of ts.c, in declaration order.  Each `re` field
transliterates the PCRE source string given in its comment. -/
def timestamps : List TimestampPat := [
  { -- "\d{4}-\d{2}-\d{2}T\d{2}:\d{2}:\d{2}\.\d{9}Z"
    re := [.rep .digit 4 4, .tok (.lit '-'), .rep .digit 2 2, .tok (.lit '-'),
           .rep .digit 2 2, .tok (.lit 'T'), .rep .digit 2 2, .tok (.lit ':'),
           .rep .digit 2 2, .tok (.lit ':'), .rep .digit 2 2, .tok (.lit '.'),
           .rep .digit 9 9, .tok (.lit 'Z')],
    description := "Kubernetes pod log entry with timestamp",
    strptime_format := "%Y-%m-%dT%H:%M:%S" },
  { -- "\d{2}\d{2} \d{2}:\d{2}:\d{2}\.\d{6}"
    re := [.rep .digit 2 2, .rep .digit 2 2, .tok (.lit ' '), .rep .digit 2 2,
           .tok (.lit ':'), .rep .digit 2 2, .tok (.lit ':'), .rep .digit 2 2,
           .tok (.lit '.'), .rep .digit 6 6],
    description := "Kubernetes client-go log format with microseconds",
    strptime_format := "%m%d %H:%M:%S" },
  { -- "\d+\s+\w\w\w\s+\d\d+\s+\d\d:\d\d:\d\d\s+[+-]\d\d\d\d"
    re := [.plus .digit, .plus .space, .tok .word, .tok .word, .tok .word,
           .plus .space, .tok .digit, .plus .digit, .plus .space, .tok .digit,
           .tok .digit, .tok (.lit ':'), .tok .digit, .tok .digit, .tok (.lit ':'),
           .tok .digit, .tok .digit, .plus .space, .tok .signClass, .tok .digit,
           .tok .digit, .tok .digit, .tok .digit],
    description := "16 Jun 94 07:29:35 with timezone",
    strptime_format := "%d %b %y %H:%M:%S %z" },
  { -- "\d\d[-\s\/]\w\w\w\/\d\d+\s+\d\d:\d\d:\d\d\s+[+-]\d\d\d\d"
    re := [.tok .digit, .tok .digit, .tok .sepClass, .tok .word, .tok .word,
           .tok .word, .tok (.lit '/'), .tok .digit, .plus .digit, .plus .space,
           .tok .digit, .tok .digit, .tok (.lit ':'), .tok .digit, .tok .digit,
           .tok (.lit ':'), .tok .digit, .tok .digit, .plus .space, .tok .signClass,
           .tok .digit, .tok .digit, .tok .digit, .tok .digit],
    description := "21 dec/93 17:05:30 +0000",
    strptime_format := "%d %b/%y %H:%M:%S %z" },
  { -- "\d\d[-\s\/]\w\w\w\s+\d\d:\d\d:\d\d\s+[+-]\d\d\d\d"
    re := [.tok .digit, .tok .digit, .tok .sepClass, .tok .word, .tok .word,
           .tok .word, .plus .space, .tok .digit, .tok .digit, .tok (.lit ':'),
           .tok .digit, .tok .digit, .tok (.lit ':'), .tok .digit, .tok .digit,
           .plus .space, .tok .signClass, .tok .digit, .tok .digit, .tok .digit,
           .tok .digit],
    description := "21 dec 17:05:30 +0000",
    strptime_format := "%d %b %H:%M:%S %z" },
  { -- "\d\d[-\s\/]\w\w\w\/\d\d+\s+\d\d:\d\d"
    re := [.tok .digit, .tok .digit, .tok .sepClass, .tok .word, .tok .word,
           .tok .word, .tok (.lit '/'), .tok .digit, .plus .digit, .plus .space,
           .tok .digit, .tok .digit, .tok (.lit ':'), .tok .digit, .tok .digit],
    description := "21 dec/93 17:05 without seconds and timezone",
    strptime_format := "%d %b/%y %H:%M" },
  { -- "\d\d[-\s\/]\w\w\w\s+\d\d:\d\d"
    re := [.tok .digit, .tok .digit, .tok .sepClass, .tok .word, .tok .word,
           .tok .word, .plus .space, .tok .digit, .tok .digit, .tok (.lit ':'),
           .tok .digit, .tok .digit],
    description := "21 dec 17:05 without seconds and timezone",
    strptime_format := "%d %b %H:%M" },
  { -- "\d\d\d\d[-:]\d\d[-:]\d\dT\d\d:\d\d:\d\d"
    re := [.tok .digit, .tok .digit, .tok .digit, .tok .digit, .tok .dashColonClass,
           .tok .digit, .tok .digit, .tok .dashColonClass, .tok .digit, .tok .digit,
           .tok (.lit 'T'), .tok .digit, .tok .digit, .tok (.lit ':'), .tok .digit,
           .tok .digit, .tok (.lit ':'), .tok .digit, .tok .digit],
    description := "ISO-8601 format",
    strptime_format := "%Y-%m-%dT%H:%M:%S" },
  { -- "\w\w\w\s+\w\w\w\s+\d\d\s+\d\d:\d\d"
    re := [.tok .word, .tok .word, .tok .word, .plus .space, .tok .word, .tok .word,
           .tok .word, .plus .space, .tok .digit, .tok .digit, .plus .space,
           .tok .digit, .tok .digit, .tok (.lit ':'), .tok .digit, .tok .digit],
    description := "Lastlog format",
    strptime_format := "%a %b %d %H:%M" },
  { -- "\w{3}\s+\d{1,2}\s+\d\d:\d\d:\d\d"
    re := [.rep .word 3 3, .plus .space, .rep .digit 1 2, .plus .space, .tok .digit,
           .tok .digit, .tok (.lit ':'), .tok .digit, .tok .digit, .tok (.lit ':'),
           .tok .digit, .tok .digit],
    description := "Syslog format with day",
    strptime_format := "%b %d %H:%M:%S" }]

/-- Helper for `match_timestamp`: first template in table order that the
engine matches. -/
def matchFirst : List TimestampPat → List Char → Option (Nat × Nat × String)
  | [], _ => none
  | p :: ps, subject =>
    match pcre2Search p.re subject 0 with
    | some (ms, me) => some (ms, me, p.strptime_format)
    | none => matchFirst ps subject

/-- `match_timestamp` from ts.c: scan the fixed template list in order and
return the first match's byte span `[start, end)` and its strptime format. -/
def match_timestamp (subject : List Char) : Option (Nat × Nat × String) :=
  matchFirst timestamps subject

/-! ## Relative-time formatting pipeline -/

/-- `time_unit_symbol` from ts.c. -/
def time_unit_symbol : Nat → String
  | 0 => "year"
  | 1 => "day"
  | 2 => "hour"
  | 3 => "minute"
  | 4 => "second"
  | _ => "unknown"

/-- `write_ull_padded` at width 0, the only width `format_comp_time` uses:
the decimal digits of the value, no padding. -/
def write_ull (value : Nat) : String :=
  Nat.repr value

/-- `format_comp_time` from ts.c: each non-zero unit, most significant
first, rendered as its decimal value immediately followed by the first
character of its unit symbol, no separators; then the direction suffix. -/
def format_comp_time (ct : CompTime) (direction : String) : String :=
  String.join ((List.range TIME_UNIT_COUNT).map (fun i =>
    if 0 < ct.get i then write_ull (ct.get i) ++ (time_unit_symbol i).take 1 else "")) ++
    direction

/-- The fields of `struct tm` that the pipeline reads or writes. -/
structure Tm where
  tm_sec : Int
  tm_min : Int
  tm_hour : Int
  tm_mday : Int
  tm_mon : Int
  tm_year : Int
  tm_isdst : Int
deriving DecidableEq

/-- The external calendar library (spec section 6), passed in explicitly:
format-driven parsing of an isolated substring (`none` = rejection), the
current year as `localtime` reports it, and `mktime`. -/
structure CalendarLib where
  strptime : List Char → String → Option Tm
  localtime_year : Int → Int
  mktime : Tm → Int

/-- ts.c lines 590-613: year inference and the single future-correction
pass.  If the parsed year is zero it is set to the current year from `now`;
DST is left to the library (`tm_isdst = -1`); if the trial instant is
strictly after `now` the year is decremented once and the instant
recomputed once.  Returns the resolved calendar value and its instant. -/
def resolve_parsed_time (cal : CalendarLib) (now : Int) (parsed_tm : Tm) : Tm × Int :=
  let tm1 := if parsed_tm.tm_year = 0 then
      { parsed_tm with tm_year := cal.localtime_year now }
    else parsed_tm
  let tm2 := { tm1 with tm_isdst := -1 }
  let parsed_time_t := cal.mktime tm2
  if parsed_time_t > now then
    let tm3 := { tm2 with tm_year := tm2.tm_year - 1, tm_isdst := -1 }
    (tm3, cal.mktime tm3)
  else
    (tm2, parsed_time_t)

/-- The year-defaulted trial calendar value, in the words of spec section
4.4 steps 2-3: the parsed value with an unset/zero year replaced by the
current year, and DST resolution left to the library. -/
def trialTm (cal : CalendarLib) (now : Int) (parsed_tm : Tm) : Tm :=
  { parsed_tm with
    tm_year := if parsed_tm.tm_year = 0 then cal.localtime_year now else parsed_tm.tm_year,
    tm_isdst := -1 }

/-- Result of `fmt_time_rel`: the formatted buffer and the value left in
`*match_end`, which `main` uses as the offset into the line. -/
structure RelFmtResult where
  buf : String
  match_end : Nat
deriving DecidableEq

/-- `fmt_time_rel` from ts.c (lines 560-634) in the default relative mode
(`user_format_specified` false, so the strftime branch is not taken).
`*match_end` starts at 0; a successful template match sets it to the match
end; a strptime rejection returns early WITHOUT resetting it (ts.c lines
583-586 restore the truncated byte and return).  External calendar calls go
through `cal`. -/
def fmt_time_rel (cal : CalendarLib) (flag_precision : Nat) (line : List Char)
    (now : Int) : RelFmtResult :=
  match match_timestamp line with
  | none => { buf := "", match_end := 0 }
  | some (match_start, match_end, strptime_fmt) =>
    -- the C truncates the line at match_end and parses from match_start:
    -- the parser sees the isolated substring line[match_start, match_end)
    match cal.strptime ((line.take match_end).drop match_start) strptime_fmt with
    | none => { buf := "", match_end := match_end }
    | some parsed_tm =>
      let resolved := resolve_parsed_time cal now parsed_tm
      let seconds_diff : Int := now - resolved.2
      if seconds_diff = 0 then { buf := "right now", match_end := match_end }
      else
        { buf := format_comp_time
            (approximate_time flag_precision (seconds_to_composite_time seconds_diff.natAbs))
            (if seconds_diff ≥ 0 then " ago" else " from now"),
          match_end := match_end }

/-- The relative-mode emission of `main` (ts.c lines 1094-1104): printf of
the formatted buffer, no separator in `-r` mode, then the line from byte
offset `*match_end`. -/
def emit_rel (cal : CalendarLib) (flag_precision : Nat) (line : List Char)
    (now : Int) : String :=
  (fmt_time_rel cal flag_precision line now).buf ++
    String.mk (line.drop (fmt_time_rel cal flag_precision line now).match_end)

/-! ## Claim theorems: matcher and pipeline -/

/-- The timezone-bearing RFC-822-like template: table entry 4, detection
pattern "\d\d[-\s\/]\w\w\w\s+\d\d:\d\d:\d\d\s+[+-]\d\d\d\d", parse format
"%d %b %H:%M:%S %z". -/
def rfc822_tz_template : TimestampPat :=
  timestamps.getD 4 { re := [], description := "", strptime_format := "" }

/-- A calendar library whose parser rejects every string: stands in for
strptime rejecting "foo 12 17:05:30" against "%b %d %H:%M:%S" ("foo" is not
a month abbreviation, yet \w{3} matches it). -/
def rejectingCal : CalendarLib :=
  { strptime := fun _ _ => none,
    localtime_year := fun _ => 124,
    mktime := fun _ => 0 }

/-- A toy calendar library for witnesses: the instant of a calendar value
is its year count, the current year is 124. -/
def yearClockCal : CalendarLib :=
  { strptime := fun _ _ => none,
    localtime_year := fun _ => 124,
    mktime := fun tm => tm.tm_year }

/-- A parsed value with year 5 for the C9 witness. -/
def tmYear5 : Tm :=
  { tm_sec := 0, tm_min := 0, tm_hour := 0, tm_mday := 0, tm_mon := 0,
    tm_year := 5, tm_isdst := 0 }

/-- A calendar library for the C10 witness: parsing always succeeds with a
fixed calendar value of year 124, whose instant is 40. -/
def tmYear124 : Tm :=
  { tm_sec := 0, tm_min := 0, tm_hour := 0, tm_mday := 0, tm_mon := 0,
    tm_year := 124, tm_isdst := 0 }

def fixedParseCal : CalendarLib :=
  { strptime := fun _ _ => some tmYear124,
    localtime_year := fun _ => 124,
    mktime := fun _ => 40 }

/-! Sanity checks against `test_precision_variations` in ts.c. -/

example : approximate_time 3 ⟨1, 2, 3, 45, 59⟩ = ⟨1, 2, 4, 0, 0⟩ := by decide

example : approximate_time 4 ⟨1, 2, 3, 45, 59⟩ = ⟨1, 2, 3, 46, 0⟩ := by decide

example : approximate_time 4 ⟨0, 0, 0, 59, 59⟩ = ⟨0, 0, 0, 59, 59⟩ := by decide

example : approximate_time 2 ⟨0, 0, 1, 59, 59⟩ = ⟨0, 0, 2, 0, 0⟩ := by decide

example : approximate_time 1 ⟨0, 1, 2, 28, 30⟩ = ⟨0, 1, 0, 0, 0⟩ := by decide

example : approximate_time 2 ⟨1, 364, 23, 59, 59⟩ = ⟨2, 0, 0, 0, 0⟩ := by decide

example : approximate_time 2 ⟨0, 0, 23, 59, 59⟩ = ⟨0, 1, 0, 0, 0⟩ := by decide

example : approximate_time 2 ⟨1, 0, 1, 0, 1⟩ = ⟨1, 0, 1, 0, 0⟩ := by decide

example : approximate_time 3 ⟨0, 0, 23, 59, 60⟩ = ⟨0, 1, 0, 0, 0⟩ := by decide

example : approximate_time 2 ⟨0, 364, 23, 0, 0⟩ = ⟨0, 364, 23, 0, 0⟩ := by decide

example : composite_time_to_seconds ⟨0, 1, 2, 28, 30⟩ = 95310 := by decide

/-! ## Termination and fixpoint structure of the restart loop -/

/-- Each restart of the scan strictly decreases the sum of the non-YEAR
units, and never decreases the YEAR unit. -/
theorem scanLoop_some_decrease (precision : Nat) (ct : CompTime) :
    ∀ (l : List Nat) (cnt : Nat) (ovf : Option Nat) (ct2 : CompTime),
      (∀ i ∈ l, i ≤ 4) →
      (∀ oi, ovf = some oi → 1 ≤ oi ∧ oi ≤ 4 ∧ MAX_VALUES oi ≤ ct.get oi) →
      scanLoop precision ct l cnt ovf = some ct2 →
      ct2.nonYearSum < ct.nonYearSum ∧ ct.year ≤ ct2.year := by
  intro l
  induction l with
  | nil =>
    intro cnt ovf ct2 hl hovf h
    cases ovf with
    | none => simp [scanLoop] at h
    | some oi =>
      simp only [scanLoop, Option.some_inj] at h
      obtain ⟨h1, h4, hmax⟩ := hovf oi rfl
      subst h
      clear hovf hl
      interval_cases oi <;>
        (simp only [CompTime.incr, CompTime.set, CompTime.get, CompTime.nonYearSum,
          MAX_VALUES, DAYS_PER_YEAR, HOURS_PER_DAY, MINUTES_PER_HOUR,
          SECONDS_PER_MINUTE] at hmax ⊢) <;> omega
  | cons i is ih =>
    intro cnt ovf ct2 hl hovf h
    have hi4 : i ≤ 4 := hl i (List.mem_cons_self i is)
    have htail : ∀ j ∈ is, j ≤ 4 := fun j hj => hl j (List.mem_cons_of_mem i hj)
    simp only [scanLoop] at h
    split_ifs at h with hz hy hx hc hov
    · exact ih cnt ovf ct2 htail hovf h
    · exact ih (cnt + 1) ovf ct2 htail hovf h
    · -- excess branch, round-up carry applies
      rw [Option.some_inj] at h
      subst h
      have h1 : 1 ≤ i := by
        simp only [YEAR_UNIT] at hy
        omega
      clear ih hovf hl htail hx
      interval_cases i <;>
        (simp only [CompTime.incr, CompTime.set, CompTime.get, CompTime.zeroFrom,
          CompTime.nonYearSum, MAX_VALUES, DAYS_PER_YEAR, HOURS_PER_DAY,
          MINUTES_PER_HOUR, SECONDS_PER_MINUTE] at hz hc ⊢) <;> omega
    · -- excess branch, no carry
      rw [Option.some_inj] at h
      subst h
      have h1 : 1 ≤ i := by
        simp only [YEAR_UNIT] at hy
        omega
      clear ih hovf hl htail hx
      interval_cases i <;>
        (simp only [CompTime.zeroFrom, CompTime.get, CompTime.nonYearSum] at hz ⊢) <;> omega
    · refine ih (cnt + 1) (some i) ct2 htail ?_ h
      intro oi hoi
      have hoi2 := Option.some.inj hoi
      subst hoi2
      refine ⟨?_, hi4, hov⟩
      simp only [YEAR_UNIT] at hy
      omega
    · exact ih (cnt + 1) ovf ct2 htail hovf h

/-- A restart strictly decreases `nonYearSum`. -/
theorem scanStep_nonYearSum_lt (precision : Nat) (ct ct2 : CompTime)
    (h : scanStep precision ct = some ct2) : ct2.nonYearSum < ct.nonYearSum :=
  (scanLoop_some_decrease precision ct [0, 1, 2, 3, 4] 0 none ct2 (by decide)
    (fun oi hoi => Option.noConfusion hoi) h).1

/-- A restart never decreases the YEAR unit. -/
theorem scanStep_year_le (precision : Nat) (ct ct2 : CompTime)
    (h : scanStep precision ct = some ct2) : ct.year ≤ ct2.year :=
  (scanLoop_some_decrease precision ct [0, 1, 2, 3, 4] 0 none ct2 (by decide)
    (fun oi hoi => Option.noConfusion hoi) h).2

/-- Once a full scan finds nothing to do, further iterations change nothing. -/
theorem approxIter_fix (precision : Nat) (ct : CompTime)
    (h : scanStep precision ct = none) : ∀ fuel, approxIter precision fuel ct = ct
  | 0 => rfl
  | fuel + 1 => by simp [approxIter, h]

/-- With fuel above `nonYearSum`, the fuelled iteration reaches a state on
which a full scan finds no excess unit and no overflowing unit. -/
theorem scanStep_approxIter_none (precision : Nat) :
    ∀ (fuel : Nat) (ct : CompTime), ct.nonYearSum < fuel →
      scanStep precision (approxIter precision fuel ct) = none := by
  intro fuel
  induction fuel with
  | zero => intro ct h; omega
  | succ n ih =>
    intro ct hlt
    cases hs : scanStep precision ct with
    | none => simp [approxIter, hs]
    | some ct2 =>
      have hdec := scanStep_nonYearSum_lt precision ct ct2 hs
      simp only [approxIter, hs]
      exact ih ct2 (by omega)

/-- The result of the fuelled iteration does not depend on the fuel, as long
as the fuel exceeds the `nonYearSum` bound. -/
theorem approxIter_congr (precision : Nat) :
    ∀ (f1 f2 : Nat) (ct : CompTime), ct.nonYearSum < f1 → ct.nonYearSum < f2 →
      approxIter precision f1 ct = approxIter precision f2 ct := by
  intro f1
  induction f1 with
  | zero => intro f2 ct h1 h2; omega
  | succ a ih =>
    intro f2 ct h1 h2
    cases f2 with
    | zero => omega
    | succ b =>
      cases hs : scanStep precision ct with
      | none => simp [approxIter, hs]
      | some ct2 =>
        have hdec := scanStep_nonYearSum_lt precision ct ct2 hs
        simp only [approxIter, hs]
        exact ih b ct2 (by omega) (by omega)

/-- `approximate_time` lands on a state that a full scan leaves untouched. -/
theorem scanStep_approximate_time (precision : Nat) (ct : CompTime) :
    scanStep precision (approximate_time precision ct) = none :=
  scanStep_approxIter_none precision (ct.nonYearSum + 1) ct (Nat.lt_succ_self _)

/-- Any sufficiently large fuel computes `approximate_time`. -/
theorem approxIter_eq_approximate_time (precision : Nat) (m : Nat) (ct : CompTime)
    (h : ct.nonYearSum < m) : approxIter precision m ct = approximate_time precision ct :=
  approxIter_congr precision m (ct.nonYearSum + 1) ct h (Nat.lt_succ_self _)

/-! ## What a completed scan (no restart) guarantees -/

/-- If all units named by a list are zero, `countNZ` over it is zero. -/
theorem countNZ_eq_zero (ct : CompTime) :
    ∀ l : List Nat, (∀ j ∈ l, ct.get j = 0) → countNZ ct l = 0 := by
  intro l
  induction l with
  | nil => intro h; rfl
  | cons i is ih =>
    intro h
    simp only [countNZ, h i (List.mem_cons_self i is), if_pos, ih
      (fun j hj => h j (List.mem_cons_of_mem i hj))]

/-- A scan over a list of non-YEAR indices that completes without a restart
had no pending overflow, found every non-zero listed unit strictly below its
maximum, and either kept the running non-zero count within `precision` or
saw only zero units. -/
theorem scanLoop_none_char (precision : Nat) (ct : CompTime) :
    ∀ (l : List Nat) (cnt : Nat) (ovf : Option Nat),
      0 ∉ l →
      scanLoop precision ct l cnt ovf = none →
      ovf = none ∧
      (∀ i ∈ l, ct.get i ≠ 0 → ct.get i < MAX_VALUES i) ∧
      (countNZ ct l + cnt ≤ precision ∨ ∀ i ∈ l, ct.get i = 0) := by
  intro l
  induction l with
  | nil =>
    intro cnt ovf h0 h
    cases ovf with
    | none => exact ⟨rfl, by simp, Or.inr (by simp)⟩
    | some oi => simp [scanLoop] at h
  | cons i is ih =>
    intro cnt ovf h0 h
    have hi0 : i ≠ 0 := fun hi => h0 (hi ▸ List.mem_cons_self i is)
    have htail : 0 ∉ is := fun hmem => h0 (List.mem_cons_of_mem i hmem)
    simp only [scanLoop] at h
    split_ifs at h with hz hy hx hov
    · -- current unit zero
      obtain ⟨ho, hb, hc⟩ := ih cnt ovf htail h
      refine ⟨ho, ?_, ?_⟩
      · intro j hj hjnz
        rcases List.mem_cons.mp hj with rfl | hj2
        · exact absurd hz hjnz
        · exact hb j hj2 hjnz
      · rcases hc with hc | hc
        · exact Or.inl (by simp [countNZ, hz]; omega)
        · refine Or.inr ?_
          intro j hj
          rcases List.mem_cons.mp hj with rfl | hj2
          · exact hz
          · exact hc j hj2
    · exact absurd hy (by simpa [YEAR_UNIT] using hi0)
    · -- overflow recorded for the current unit: the scan cannot end quietly
      obtain ⟨ho, _, _⟩ := ih (cnt + 1) (some i) htail h
      exact Option.noConfusion ho
    · -- current unit non-zero, within precision and below its maximum
      obtain ⟨ho, hb, hc⟩ := ih (cnt + 1) ovf htail h
      refine ⟨ho, ?_, ?_⟩
      · intro j hj hjnz
        rcases List.mem_cons.mp hj with rfl | hj2
        · omega
        · exact hb j hj2 hjnz
      · rcases hc with hc | hc
        · exact Or.inl (by simp [countNZ, hz]; omega)
        · refine Or.inl ?_
          have : countNZ ct is = 0 := countNZ_eq_zero ct is hc
          simp [countNZ, hz, this]
          omega

/-- `scanLoop` one-step unfolding at a cons cell. -/
theorem scanLoop_cons (precision : Nat) (ct : CompTime) (i : Nat) (is : List Nat)
    (cnt : Nat) (ovf : Option Nat) :
    scanLoop precision ct (i :: is) cnt ovf =
      if ct.get i = 0 then
        scanLoop precision ct is cnt ovf
      else
        if i = YEAR_UNIT then
          scanLoop precision ct is (cnt + 1) ovf
        else
          if precision < cnt + 1 then
            some ((if MAX_VALUES i / 2 ≤ ct.get i then ct.incr (i - 1) else ct).zeroFrom i)
          else
            if MAX_VALUES i ≤ ct.get i then
              scanLoop precision ct is (cnt + 1) (some i)
            else
              scanLoop precision ct is (cnt + 1) ovf := rfl

/-- What holds of a composite time on which a full scan finds nothing to do:
all non-YEAR units are strictly below their maxima, and the total number of
non-zero units (YEAR included, since the scan counts it) is within
`precision`, unless no non-YEAR unit is populated at all. -/
theorem scanStep_none_char (precision : Nat) (ct : CompTime)
    (h : scanStep precision ct = none) :
    (ct.day < 365 ∧ ct.hour < 24 ∧ ct.minute < 60 ∧ ct.second < 60) ∧
      ((if ct.year = 0 then 0 else 1) + ct.nonZeroNonYearUnits ≤ precision ∨
        ct.nonZeroNonYearUnits = 0) := by
  unfold scanStep at h
  rw [scanLoop_cons] at h
  simp only [CompTime.get, YEAR_UNIT, if_pos rfl] at h
  by_cases hy : ct.year = 0
  · rw [if_pos hy] at h
    obtain ⟨-, hb, hc⟩ := scanLoop_none_char precision ct [1, 2, 3, 4] 0 none (by decide) h
    constructor
    · have h1 := hb 1 (by decide)
      have h2 := hb 2 (by decide)
      have h3 := hb 3 (by decide)
      have h4 := hb 4 (by decide)
      simp only [CompTime.get, MAX_VALUES, DAYS_PER_YEAR, HOURS_PER_DAY, MINUTES_PER_HOUR,
        SECONDS_PER_MINUTE] at h1 h2 h3 h4
      omega
    · rw [if_pos hy]
      rcases hc with hc | hc
      · refine Or.inl ?_
        simp only [countNZ, CompTime.get, CompTime.nonZeroNonYearUnits] at hc ⊢
        omega
      · refine Or.inr ?_
        have h1 := hc 1 (by decide)
        have h2 := hc 2 (by decide)
        have h3 := hc 3 (by decide)
        have h4 := hc 4 (by decide)
        simp only [CompTime.get] at h1 h2 h3 h4
        simp [CompTime.nonZeroNonYearUnits, h1, h2, h3, h4]
  · rw [if_neg hy] at h
    obtain ⟨-, hb, hc⟩ := scanLoop_none_char precision ct [1, 2, 3, 4] 1 none (by decide) h
    constructor
    · have h1 := hb 1 (by decide)
      have h2 := hb 2 (by decide)
      have h3 := hb 3 (by decide)
      have h4 := hb 4 (by decide)
      simp only [CompTime.get, MAX_VALUES, DAYS_PER_YEAR, HOURS_PER_DAY, MINUTES_PER_HOUR,
        SECONDS_PER_MINUTE] at h1 h2 h3 h4
      omega
    · rw [if_neg hy]
      rcases hc with hc | hc
      · refine Or.inl ?_
        simp only [countNZ, CompTime.get, CompTime.nonZeroNonYearUnits] at hc ⊢
        omega
      · refine Or.inr ?_
        have h1 := hc 1 (by decide)
        have h2 := hc 2 (by decide)
        have h3 := hc 3 (by decide)
        have h4 := hc 4 (by decide)
        simp only [CompTime.get] at h1 h2 h3 h4
        simp [CompTime.nonZeroNonYearUnits, h1, h2, h3, h4]

/-! ## Precision-zero behaviour and YEAR monotonicity -/

/-- A composite time with no populated non-YEAR unit is a fixed point of the
scan, whatever the precision. -/
theorem scanStep_of_nonYearSum_zero (precision : Nat) (ct : CompTime)
    (h : ct.nonYearSum = 0) : scanStep precision ct = none := by
  have hd : ct.day = 0 := by unfold CompTime.nonYearSum at h; omega
  have hh : ct.hour = 0 := by unfold CompTime.nonYearSum at h; omega
  have hm : ct.minute = 0 := by unfold CompTime.nonYearSum at h; omega
  have hs : ct.second = 0 := by unfold CompTime.nonYearSum at h; omega
  by_cases hy : ct.year = 0 <;>
    simp [scanStep, scanLoop, CompTime.get, hd, hh, hm, hs, hy, YEAR_UNIT]

/-- At precision 0, a restart either leaves the YEAR unit alone, or carries
exactly one year in while clearing every non-YEAR unit. -/
theorem scanLoop_p0 (ct : CompTime) :
    ∀ (l : List Nat) (cnt : Nat) (ct2 : CompTime),
      (∀ i ∈ l, i ≤ 4) →
      scanLoop 0 ct l cnt none = some ct2 →
      ct2.year = ct.year ∨ (ct2.year = ct.year + 1 ∧ ct2.nonYearSum = 0) := by
  intro l
  induction l with
  | nil => intro cnt ct2 hl h; exact Option.noConfusion h
  | cons i is ih =>
    intro cnt ct2 hl h
    have hi4 : i ≤ 4 := hl i (List.mem_cons_self i is)
    have htail : ∀ j ∈ is, j ≤ 4 := fun j hj => hl j (List.mem_cons_of_mem i hj)
    simp only [scanLoop] at h
    split_ifs at h with hz hy hx hc hov
    · exact ih cnt ct2 htail h
    · exact ih (cnt + 1) ct2 htail h
    · -- excess with carry
      rw [Option.some_inj] at h
      subst h
      have h1 : 1 ≤ i := by
        simp only [YEAR_UNIT] at hy
        omega
      clear ih htail hl
      interval_cases i <;>
        (simp only [CompTime.incr, CompTime.set, CompTime.get, CompTime.zeroFrom,
          CompTime.nonYearSum, MAX_VALUES, DAYS_PER_YEAR, HOURS_PER_DAY,
          MINUTES_PER_HOUR, SECONDS_PER_MINUTE, true_or, or_true, true_and,
          and_true] at hz hc ⊢)
    · -- excess without carry
      rw [Option.some_inj] at h
      subst h
      have h1 : 1 ≤ i := by
        simp only [YEAR_UNIT] at hy
        omega
      clear ih htail hl
      interval_cases i <;>
        (simp only [CompTime.zeroFrom, CompTime.get, CompTime.nonYearSum, true_or,
          or_true, true_and, and_true] at hz ⊢)
    · omega
    · omega

/-- `scanLoop_p0` at the full unit list. -/
theorem scanStep_p0_step (ct ct2 : CompTime) (h : scanStep 0 ct = some ct2) :
    ct2.year = ct.year ∨ (ct2.year = ct.year + 1 ∧ ct2.nonYearSum = 0) :=
  scanLoop_p0 ct [0, 1, 2, 3, 4] 0 ct2 (by decide) h

/-- The YEAR unit never decreases across the whole iteration. -/
theorem approxIter_year_le (precision : Nat) :
    ∀ (fuel : Nat) (ct : CompTime), ct.year ≤ (approxIter precision fuel ct).year := by
  intro fuel
  induction fuel with
  | zero => intro ct; exact Nat.le_refl _
  | succ n ih =>
    intro ct
    cases hs : scanStep precision ct with
    | none => simp [approxIter, hs]
    | some ct2 =>
      simp only [approxIter, hs]
      exact Nat.le_trans (scanStep_year_le precision ct ct2 hs) (ih ct2)

/-- At precision 0, the final YEAR value is the input YEAR or its successor. -/
theorem approxIter_p0_year :
    ∀ (fuel : Nat) (ct : CompTime), ct.nonYearSum < fuel →
      (approxIter 0 fuel ct).year = ct.year ∨ (approxIter 0 fuel ct).year = ct.year + 1 := by
  intro fuel
  induction fuel with
  | zero => intro ct h; omega
  | succ n ih =>
    intro ct hlt
    cases hs : scanStep 0 ct with
    | none => simp [approxIter, hs]
    | some ct2 =>
      have hdec := scanStep_nonYearSum_lt 0 ct ct2 hs
      simp only [approxIter, hs]
      rcases scanStep_p0_step ct ct2 hs with hsame | ⟨hy1, hz⟩
      · rcases ih ct2 (by omega) with h1 | h1
        · rw [h1, hsame]
          exact Or.inl rfl
        · rw [h1, hsame]
          exact Or.inr rfl
      · rw [approxIter_fix 0 ct2 (scanStep_of_nonYearSum_zero 0 ct2 hz) n]
        exact Or.inr hy1

/-- A zero non-zero-unit count means every non-YEAR unit is zero. -/
theorem nonZeroNonYearUnits_eq_zero (ct : CompTime) (h : ct.nonZeroNonYearUnits = 0) :
    ct.day = 0 ∧ ct.hour = 0 ∧ ct.minute = 0 ∧ ct.second = 0 := by
  unfold CompTime.nonZeroNonYearUnits at h
  split_ifs at h <;> omega

/-! ## Claim theorems: composite time and approximation -/

/-- C5: the composite-time conversions round-trip: for every non-negative
total-seconds value `s`, `composite_time_to_seconds (seconds_to_composite_time s) = s`. -/
theorem composite_seconds_roundtrip (s : Nat) :
    composite_time_to_seconds (seconds_to_composite_time s) = s := by
  simp only [composite_time_to_seconds, seconds_to_composite_time, SECONDS_PER_YEAR,
    SECONDS_PER_DAY, SECONDS_PER_HOUR, DAYS_PER_YEAR, HOURS_PER_DAY, MINUTES_PER_HOUR,
    SECONDS_PER_MINUTE]
  omega

/-- C4: `approximate_time` is idempotent: applying it twice at the same
precision gives the same result as applying it once, for every composite
time (unit values are non-negative by construction) and every precision. -/
theorem approximate_time_idempotent (precision : Nat) (ct : CompTime) :
    approximate_time precision (approximate_time precision ct) =
      approximate_time precision ct :=
  approxIter_fix precision (approximate_time precision ct)
    (scanStep_approximate_time precision ct)
    ((approximate_time precision ct).nonYearSum + 1)

/-- C7: after `approximate_time`, for every input composite time (including
out-of-range units such as SECOND = 60) and every precision, every non-YEAR
unit of the result is strictly below its per-unit maximum:
DAY < 365, HOUR < 24, MINUTE < 60, SECOND < 60. -/
theorem approximate_time_result_bounds (precision : Nat) (ct : CompTime) :
    (approximate_time precision ct).day < 365 ∧
      (approximate_time precision ct).hour < 24 ∧
      (approximate_time precision ct).minute < 60 ∧
      (approximate_time precision ct).second < 60 :=
  (scanStep_none_char precision (approximate_time precision ct)
    (scanStep_approximate_time precision ct)).1

/-- C6: at precision 0, `approximate_time` collapses every non-YEAR unit to
0 for every input; YEAR is never reset and is at most incremented by one
(the rounding carry out of the DAY unit). -/
theorem approximate_time_precision_zero (ct : CompTime) :
    (approximate_time 0 ct).day = 0 ∧ (approximate_time 0 ct).hour = 0 ∧
      (approximate_time 0 ct).minute = 0 ∧ (approximate_time 0 ct).second = 0 ∧
      ((approximate_time 0 ct).year = ct.year ∨
        (approximate_time 0 ct).year = ct.year + 1) := by
  have hchar := (scanStep_none_char 0 (approximate_time 0 ct)
    (scanStep_approximate_time 0 ct)).2
  have hcnt : (approximate_time 0 ct).nonZeroNonYearUnits = 0 := by
    rcases hchar with h | h
    · split_ifs at h <;> omega
    · exact h
  obtain ⟨hd, hh, hm, hs⟩ := nonZeroNonYearUnits_eq_zero _ hcnt
  have hyr : (approximate_time 0 ct).year = ct.year ∨
      (approximate_time 0 ct).year = ct.year + 1 :=
    approxIter_p0_year (ct.nonYearSum + 1) ct (Nat.lt_succ_self _)
  exact ⟨hd, hh, hm, hs, hyr⟩

/-- C8: `approximate_time` terminates for every input: the restart loop
reaches, within `nonYearSum + 1` full scans (and stably for any larger
fuel), a state on which a full scan finds no excess unit and no overflowing
unit, and that state is the returned result. -/
theorem approximate_time_terminates (precision : Nat) (ct : CompTime) :
    scanStep precision (approximate_time precision ct) = none ∧
      ∀ m, ct.nonYearSum < m →
        approxIter precision m ct = approximate_time precision ct :=
  ⟨scanStep_approximate_time precision ct,
    fun m hm => approxIter_eq_approximate_time precision m ct hm⟩

/-- C8 witness: the termination theorem applied at precision 2 to the
composite time (0y,0d,1h,59m,30s) with fuel 91. -/
theorem approximate_time_terminates_witness :
    CompTime.nonYearSum ⟨0, 0, 1, 59, 30⟩ < 91 ∧
      approxIter 2 91 ⟨0, 0, 1, 59, 30⟩ = approximate_time 2 ⟨0, 0, 1, 59, 30⟩ :=
  ⟨by decide, (approximate_time_terminates 2 ⟨0, 0, 1, 59, 30⟩).2 91 (by decide)⟩

/-- C1 counterexample: the scan counts a non-zero YEAR against precision.
With YEAR = 1, precision 2 keeps only one non-YEAR unit of (1y,0d,1h,0m,1s),
while the same non-YEAR units with YEAR = 0 keep two: so a non-zero YEAR
does reduce the number of less-significant non-zero units retained,
contradicting the claim. -/
theorem year_counts_counterexample :
    (approximate_time 2 ⟨1, 0, 1, 0, 1⟩).nonZeroNonYearUnits = 1 ∧
      (approximate_time 2 ⟨0, 0, 1, 0, 1⟩).nonZeroNonYearUnits = 2 ∧
      ¬((approximate_time 2 ⟨1, 0, 1, 0, 1⟩).nonZeroNonYearUnits =
        (approximate_time 2 ⟨0, 0, 1, 0, 1⟩).nonZeroNonYearUnits) := by decide

/-- C1 (amended): the YEAR unit does count against precision when non-zero
(the scan increments `non_zero_count` for it before skipping the
excess/overflow checks): for every composite time with YEAR ≠ 0 and every
precision at least 1, at most `precision - 1` non-YEAR units remain
non-zero after approximation; the YEAR unit itself is never reset. -/
theorem year_counts_against_precision (precision : Nat) (ct : CompTime)
    (hp : 1 ≤ precision) (hy : ct.year ≠ 0) :
    (approximate_time precision ct).nonZeroNonYearUnits ≤ precision - 1 ∧
      (approximate_time precision ct).year ≠ 0 := by
  have hyle : ct.year ≤ (approximate_time precision ct).year :=
    approxIter_year_le precision (ct.nonYearSum + 1) ct
  have hchar := (scanStep_none_char precision (approximate_time precision ct)
    (scanStep_approximate_time precision ct)).2
  have hyr : (approximate_time precision ct).year ≠ 0 := by omega
  refine ⟨?_, hyr⟩
  rcases hchar with h | h
  · rw [if_neg hyr] at h
    omega
  · omega

/-- C1 amended-claim witness: at precision 2 on (1y,0d,1h,0m,1s), a single
non-YEAR unit survives and the YEAR unit is intact. -/
theorem year_counts_against_precision_witness :
    (1 ≤ 2 ∧ (⟨1, 0, 1, 0, 1⟩ : CompTime).year ≠ 0) ∧
      (approximate_time 2 ⟨1, 0, 1, 0, 1⟩).nonZeroNonYearUnits ≤ 2 - 1 ∧
      (approximate_time 2 ⟨1, 0, 1, 0, 1⟩).year ≠ 0 :=
  ⟨⟨by decide, by decide⟩,
    year_counts_against_precision 2 ⟨1, 0, 1, 0, 1⟩ (by decide) (by decide)⟩

example : match_timestamp ("16 Jun 94 07:29:35 +0000 boot".toList) =
    some (0, 24, "%d %b %y %H:%M:%S %z") := by rfl

example : match_timestamp ("pod 2024-01-02T03:04:05.123456789Z up".toList) =
    some (4, 34, "%Y-%m-%dT%H:%M:%S") := by rfl

example : match_timestamp ("no timestamp here".toList) = none := by rfl

example : format_comp_time ⟨1, 2, 4, 0, 0⟩ " ago" = "1y2d4h ago" := by rfl

example : rfc822_tz_template.strptime_format = "%d %b %H:%M:%S %z" := by rfl

/-- C3 counterexample: on the line "Jan 21 17:05:30 +0000 host app: msg"
the matcher returns the match of the Syslog-with-day template (parse format
"%b %d %H:%M:%S", span bytes 0 to 15), not of the timezone-bearing
RFC-822-like template; that template (which requires the day before the
month name) does not match the line at any offset. -/
theorem jan21_counterexample :
    match_timestamp ("Jan 21 17:05:30 +0000 host app: msg".toList) =
      some (0, 15, "%b %d %H:%M:%S") ∧
      ("%b %d %H:%M:%S" : String) ≠ "%d %b %H:%M:%S %z" ∧
      pcre2Search rfc822_tz_template.re
        ("Jan 21 17:05:30 +0000 host app: msg".toList) 0 = none :=
  ⟨by rfl, by decide, by rfl⟩

/-- C3 (amended): for the input line "Jan 21 17:05:30 +0000 host app: msg",
the timestamp matcher (fixed template list in order) returns the match of
the Syslog-with-day template, parse format "%b %d %H:%M:%S", over bytes
[0, 15); the timezone-bearing RFC-822-like template does not match the line
(its pattern puts the day digits before the month name). -/
theorem jan21_matches_syslog_template :
    match_timestamp ("Jan 21 17:05:30 +0000 host app: msg".toList) =
      some (0, 15, "%b %d %H:%M:%S") ∧
      pcre2Search rfc822_tz_template.re
        ("Jan 21 17:05:30 +0000 host app: msg".toList) 0 = none :=
  ⟨by rfl, by rfl⟩

/-- C2 (code bug): a ParseFailure does NOT behave like a PatternMismatch.
On "foo 12 17:05:30 x" the Syslog template matches bytes [0, 15); the
calendar library then rejects the substring, and `fmt_time_rel` returns
with an empty buffer but with `*match_end` still 15 (ts.c lines 583-586
restore the truncated byte but never reset `*match_end`), so `main` emits
only " x": the prefix and the matched span are dropped.  A true
PatternMismatch (last conjunct) emits the line unmodified. -/
theorem parse_failure_drops_content :
    (fmt_time_rel rejectingCal 2 ("foo 12 17:05:30 x".toList) 0).match_end = 15 ∧
      emit_rel rejectingCal 2 ("foo 12 17:05:30 x".toList) 0 = " x" ∧
      (" x" : String) ≠ "foo 12 17:05:30 x" ∧
      emit_rel rejectingCal 2 ("no timestamp here".toList) 0 = "no timestamp here" :=
  ⟨by rfl, by rfl, by decide, by rfl⟩

/-- C9: year resolution takes exactly two steps.  With `trialTm` the
year-defaulted calendar value (unset/zero year replaced by the current year
from `now`, DST left to the library): if its instant is not after `now` it
is the result as-is; if its instant is strictly after `now`, the result is
exactly the once-decremented year with its recomputed instant — in both
cases nothing further happens, so in the second case the result stands even
when its own instant still lies after `now` (timestamps more than one year
stale). -/
theorem resolve_year_two_steps (cal : CalendarLib) (now : Int) (parsed_tm : Tm) :
    (cal.mktime (trialTm cal now parsed_tm) ≤ now →
      resolve_parsed_time cal now parsed_tm =
        (trialTm cal now parsed_tm, cal.mktime (trialTm cal now parsed_tm))) ∧
    (now < cal.mktime (trialTm cal now parsed_tm) →
      resolve_parsed_time cal now parsed_tm =
        ({ trialTm cal now parsed_tm with
            tm_year := (trialTm cal now parsed_tm).tm_year - 1 },
          cal.mktime { trialTm cal now parsed_tm with
            tm_year := (trialTm cal now parsed_tm).tm_year - 1 })) := by
  have htrial : ({ (if parsed_tm.tm_year = 0 then
        { parsed_tm with tm_year := cal.localtime_year now }
      else parsed_tm) with tm_isdst := -1 } : Tm) = trialTm cal now parsed_tm := by
    unfold trialTm
    by_cases h0 : parsed_tm.tm_year = 0 <;> simp [h0]
  constructor <;> intro h <;>
    simp only [resolve_parsed_time, htrial] <;>
    [rw [if_neg (not_lt.mpr h)]; rw [if_pos h]] <;>
    (by_cases h0 : parsed_tm.tm_year = 0 <;> simp [trialTm, h0])

/-- C9 witness: with the toy calendar, `now = 0` and a parsed year of 5,
the trial instant 5 lies after `now`, so the year is decremented exactly
once to 4 — and the resolved instant 4 still lies after `now`, showing no
further correction pass happens. -/
theorem resolve_year_two_steps_witness :
    (0 : Int) < yearClockCal.mktime (trialTm yearClockCal 0 tmYear5) ∧
      resolve_parsed_time yearClockCal 0 tmYear5 =
        ({ tm_sec := 0, tm_min := 0, tm_hour := 0, tm_mday := 0, tm_mon := 0,
           tm_year := 4, tm_isdst := -1 }, 4) ∧
      (0 : Int) < (resolve_parsed_time yearClockCal 0 tmYear5).2 :=
  ⟨by decide, (resolve_year_two_steps yearClockCal 0 tmYear5).2 (by decide), by decide⟩

/-- C10: in relative mode, whenever a timestamp template matches the line,
the emitted output is the formatted buffer followed by the line content
starting at the END byte of the matched span: every byte before the match
start, and the matched span itself, is dropped from the output, whatever
the calendar library does with the substring. -/
theorem emit_rel_uses_match_end (cal : CalendarLib) (flag_precision : Nat)
    (line : List Char) (now : Int) (ms me : Nat) (fmtStr : String)
    (h : match_timestamp line = some (ms, me, fmtStr)) :
    emit_rel cal flag_precision line now =
      (fmt_time_rel cal flag_precision line now).buf ++ String.mk (line.drop me) := by
  have hend : (fmt_time_rel cal flag_precision line now).match_end = me := by
    simp only [fmt_time_rel, h]
    cases hs : cal.strptime ((line.take me).drop ms) fmtStr with
    | none => simp [hs]
    | some parsed_tm =>
      simp only [hs]
      split <;> rfl
  unfold emit_rel
  rw [hend]

/-- C10 witness: on "ab Jan 21 17:05:30 zz" the Syslog template matches
bytes [3, 18); with the fixed-parse calendar and `now = 100` the output is
"1m ago zz": the relative text, then the tail from byte 18 — the prefix
"ab " and the matched span are gone. -/
theorem emit_rel_uses_match_end_witness :
    match_timestamp ("ab Jan 21 17:05:30 zz".toList) = some (3, 18, "%b %d %H:%M:%S") ∧
      emit_rel fixedParseCal 2 ("ab Jan 21 17:05:30 zz".toList) 100 =
        (fmt_time_rel fixedParseCal 2 ("ab Jan 21 17:05:30 zz".toList) 100).buf ++
          String.mk (("ab Jan 21 17:05:30 zz".toList).drop 18) ∧
      emit_rel fixedParseCal 2 ("ab Jan 21 17:05:30 zz".toList) 100 = "1m ago zz" :=
  ⟨by rfl,
    emit_rel_uses_match_end fixedParseCal 2 ("ab Jan 21 17:05:30 zz".toList) 100 3 18
      "%b %d %H:%M:%S" (by rfl),
    by rfl⟩
